import Mathlib

/-!
Shallow embedding of the movis bridge module of vs-transitions
(`src/vstransitions/libs/movis.py`) and proofs about its core logic:
the time-to-frame-index mapping (`get_key`), the 4-plane frame assembly
(`__call__`), the alpha-fallback constructor, the unimplemented audio
stub, the frame-rate inference of `MovisSceneVSWrap.__init__`, and the
`_to_node` bridge with its mutex-guarded cache trim.

Modelling conventions:
- Python floats and `Fraction`s are modelled as exact rationals (`ℚ`).
- Python `int(x)` truncates toward zero; it is modelled by `pyInt`
  (trunc-division of numerator by denominator, `Int.tdiv`).
- numpy plane arrays are modelled as functions `ℕ → ℕ → ℕ` together with
  their dimensions; the 8-bit coercion `np.asarray(_, np.uint8)` is `% 256`.
- Exceptions are modelled with `Except PyError`.
- External collaborators are explicit parameters: `std.PropToClip` (which
  may raise) is a parameter `propToClip`, and the resizer's pixel
  conversion is a parameter `conv`.  `resize.Bicubic(format=fmt)` keeps
  the clip's dimensions, frame count and frame rate, and is the identity
  when the clip already has the requested format (no kwargs modelled).
- `FramesCache` lookups are transparent reads of the underlying node's
  frame data (the external cache is a black box returning decoded planes).
- The scene's memoization dictionary `scene._cache` is modelled by its
  key sequence in insertion order (Python dicts preserve insertion
  order; `list(d.keys())[:n]` are the `n` oldest-inserted keys).
- The scene compositor `Composition.__call__` is an opaque state
  transformer `SceneFn` on that cache, returning an optional frame.
-/

/-- Python exception kinds raised by the embedded code paths. -/
inductive PyError where
  | notImplementedError
  | keyError
  | indexError
  | attributeError
  | typeError
deriving DecidableEq

/-- A VapourSynth video format: number of planes and bit depth. -/
structure VideoFormat where
  numPlanes : ℕ
  bitsPerSample : ℕ
deriving DecidableEq

/-- `vs.RGB24`: three 8-bit planes. -/
def RGB24 : VideoFormat := ⟨3, 8⟩

/-- `vs.GRAY8`: one 8-bit plane. -/
def GRAY8 : VideoFormat := ⟨1, 8⟩

/-- A VapourSynth `VideoNode`: dimensions, frame count, frame rate,
format, and per-(frame, plane, row, col) sample data. -/
structure VideoNode where
  width : ℕ
  height : ℕ
  numFrames : ℕ
  fps : ℚ
  format : VideoFormat
  data : ℕ → ℕ → ℕ → ℕ → ℕ

/-- `core.std.BlankClip(ref, format=vs.GRAY8, color=color, keep=True)`:
same dimensions, frame count and frame rate as `ref`, constant colour. -/
def blankClipGray8 (ref : VideoNode) (color : ℕ) : VideoNode :=
  { ref with format := GRAY8, data := fun _ _ _ _ => color }

/-- Pixel-conversion function of the external resizer (opaque). -/
abbrev ConvFn := VideoNode → VideoFormat → ℕ → ℕ → ℕ → ℕ → ℕ

/-- `clip.resize.Bicubic(format=fmt)`: format conversion by the external
resizer; keeps dimensions, frame count and frame rate, and is the
identity when the clip is already in the requested format. -/
def resizeBicubic (conv : ConvFn) (n : VideoNode) (fmt : VideoFormat) : VideoNode :=
  if n.format = fmt then n else { n with format := fmt, data := conv n fmt }

/-- A VapourSynth `AudioNode` (opaque handle). -/
structure AudioNode where
  id : ℕ

/-- Audio sample data (opaque). -/
abbrev AudioSamples := ℕ → ℤ

/-- `MovisVSAudioSource` instance state (never reachable: the constructor
always raises before initialising anything). -/
structure MovisVSAudioSource where
  audio_node : AudioNode

/-- `MovisVSAudioSource.__init__`: unconditionally raises
`NotImplementedError`. -/
def MovisVSAudioSource.construct (_a : AudioNode) : Except PyError MovisVSAudioSource :=
  .error .notImplementedError

/-- `MovisVSAudioSource.get_audio`: unconditionally raises
`NotImplementedError`. -/
def MovisVSAudioSource.get_audio (_l : MovisVSAudioSource) (_t0 _t1 : ℚ) :
    Except PyError (Option AudioSamples) :=
  .error .notImplementedError

/-- The `video_node` argument of `MovisVSVideoSource.__init__`:
either a bare node, or a tuple `(node, alpha_node)`, or `(node, bool)`. -/
inductive VideoArg where
  | plain (v : VideoNode)
  | withAlpha (v : VideoNode) (a : VideoNode)
  | withFlag (v : VideoNode) (b : Bool)

/-- The colour node carried by a `VideoArg`. -/
def VideoArg.video : VideoArg → VideoNode
  | .plain v => v
  | .withAlpha v _ => v
  | .withFlag v _ => v

/-- The alpha-node selection of `MovisVSVideoSource.__init__` (lines
19-31): an explicit alpha node is used as-is; otherwise the code tries
`video_node.std.PropToClip('_Alpha')` (after raising `TypeError` when the
flag is `False`), and any exception falls back to a fully-opaque GRAY8
blank clip with colour 255. -/
def alphaNodeOf (propToClip : VideoNode → Except PyError VideoNode) :
    VideoArg → VideoNode
  | .plain v =>
    match propToClip v with
    | .ok a => a
    | .error _ => blankClipGray8 v 255
  | .withAlpha _ a => a
  | .withFlag v b =>
    if b then
      match propToClip v with
      | .ok a => a
      | .error _ => blankClipGray8 v 255
    else blankClipGray8 v 255

/-- `MovisVSVideoSource` instance state after a successful `__init__`. -/
structure MovisVSVideoSource where
  video_node : VideoNode
  video_alpha_node : VideoNode
  _audio : Option AudioNode
  _audio_layer : Option MovisVSAudioSource

/-- `MovisVSVideoSource.__init__`: selects the alpha node (with opaque
fallback), converts colour to RGB24 and alpha to GRAY8, then — if an
audio node was supplied (non-None audio nodes are truthy) — instantiates
`MovisVSAudioSource(audio)`, whose constructor raises; the raise aborts
the whole constructor.  `SetVideoCache` and the `FramesCache` creations
are cache configuration with no bearing on the modelled state. -/
def MovisVSVideoSource.construct (propToClip : VideoNode → Except PyError VideoNode)
    (conv : ConvFn) (arg : VideoArg) (audio : Option AudioNode) :
    Except PyError MovisVSVideoSource :=
  let v := arg.video
  let alphaRaw := alphaNodeOf propToClip arg
  let vn := resizeBicubic conv v RGB24
  let an := resizeBicubic conv alphaRaw GRAY8
  match audio with
  | some a =>
    match MovisVSAudioSource.construct a with
    | .error e => .error e
    | .ok l => .ok ⟨vn, an, some a, some l⟩
  | none => .ok ⟨vn, an, none, none⟩

/-- Property `n_frame`. -/
def MovisVSVideoSource.n_frame (s : MovisVSVideoSource) : ℕ :=
  s.video_node.numFrames

/-- Property `size`. -/
def MovisVSVideoSource.size (s : MovisVSVideoSource) : ℕ × ℕ :=
  (s.video_node.width, s.video_node.height)

/-- Property `duration = num_frames / fps` (floats modelled exactly). -/
def MovisVSVideoSource.duration (s : MovisVSVideoSource) : ℚ :=
  (s.video_node.numFrames : ℚ) / s.video_node.fps

/-- Method `has_audio`. -/
def MovisVSVideoSource.has_audio (s : MovisVSVideoSource) : Bool :=
  s._audio_layer.isSome

/-- Python `int(q)`: truncation toward zero. -/
def pyInt (q : ℚ) : ℤ :=
  q.num.tdiv (q.den : ℤ)

/-- `MovisVSVideoSource.get_key`: `-1` when `time < 0 or duration < time`,
otherwise `int(time * fps)`. -/
def MovisVSVideoSource.get_key (s : MovisVSVideoSource) (time : ℚ) : ℤ :=
  if time < 0 ∨ s.duration < time then -1
  else pyInt (time * s.video_node.fps)

/-- One 2-D plane as assembled by `__call__`. -/
structure PlaneData where
  width : ℕ
  height : ℕ
  data : ℕ → ℕ → ℕ

/-- `np.asarray(_, np.uint8)`: coercion to 8-bit unsigned samples. -/
def u8 (v : ℕ) : ℕ := v % 256

/-- Plane `p` of frame `frameIdx` of a node, coerced to 8-bit. -/
def planeOf (n : VideoNode) (frameIdx p : ℕ) : PlaneData :=
  ⟨n.width, n.height, fun r c => u8 (n.data frameIdx p r c)⟩

/-- `MovisVSVideoSource.__call__` (the spec's `sample`): `None` when the
key is out of `[0, n_frame)`; otherwise the stack of the three colour
planes of the cached colour frame and plane 0 of the cached alpha frame,
each coerced to 8-bit unsigned. -/
def MovisVSVideoSource.call (s : MovisVSVideoSource) (time : ℚ) :
    Option (List PlaneData) :=
  let frame_index := s.get_key time
  if frame_index < 0 ∨ (s.n_frame : ℤ) ≤ frame_index then none
  else
    some [planeOf s.video_node frame_index.toNat 0,
          planeOf s.video_node frame_index.toNat 1,
          planeOf s.video_node frame_index.toNat 2,
          planeOf s.video_alpha_node frame_index.toNat 0]

/-- `MovisVSVideoSource.get_audio`: delegates to the audio layer when
`self._audio` is truthy and `self._audio_layer is not None`, else `None`. -/
def MovisVSVideoSource.get_audio (s : MovisVSVideoSource) (t0 t1 : ℚ) :
    Except PyError (Option AudioSamples) :=
  match s._audio, s._audio_layer with
  | some _, some l => l.get_audio t0 t1
  | _, _ => .ok none

/-- A layer held by a movis `Composition`: either a `MovisVSVideoSource`
(whose `video_node.fps` is a `Fraction`) or any other layer, which may or
may not expose an `fps` attribute. -/
inductive SceneLayerKind where
  | videoSource (fps : ℚ)
  | otherLayer (fpsAttr : Option ℚ)
deriving DecidableEq

/-- An element of `scene._layers`: either a `LayerItem` wrapping a layer
or the bare layer itself. -/
inductive WrapLayer where
  | item (l : SceneLayerKind)
  | bare (l : SceneLayerKind)
deriving DecidableEq

/-- The unwrapping step of the scan loop: `if isinstance(layer,
LayerItem): layer = layer.layer`. -/
def unwrapLayer : WrapLayer → SceneLayerKind
  | .item l => l
  | .bare l => l

/-- The scan loop of `MovisSceneVSWrap.__init__`: the `video_node.fps` of
the first layer (after unwrapping) that is a `MovisVSVideoSource`. -/
def findVideoSourceFps : List WrapLayer → Option ℚ
  | [] => none
  | l :: ls =>
    match unwrapLayer l with
    | .videoSource f => some f
    | .otherLayer _ => findVideoSourceFps ls

/-- The `fps` attribute of a layer, used by the fallback branch
(`Fraction(layer.fps)`).  A `MovisVSVideoSource` exposes `fps` as
`float(video_node.fps)`; the float rounding is modelled exactly (this
case is unreachable in the fallback, which only runs when no layer is a
video source). -/
def layerFpsAttr : SceneLayerKind → Option ℚ
  | .videoSource f => some f
  | .otherLayer a => a

/-- The frame-rate selection of `MovisSceneVSWrap.__init__` (lines
124-140): an explicit `fps` is used as supplied; otherwise the first
video-source layer's `video_node.fps` is used; otherwise
`scene._layers[0].layer` is read (raising `IndexError` on an empty layer
list and `AttributeError` when the first element is not a `LayerItem`)
and its `fps` attribute is converted with `Fraction` (the re-check
`isinstance(layer, LayerItem)` after `.layer` is a no-op here, since
`.layer` never yields a `LayerItem`). -/
def inferFps (fps : Option ℚ) (layers : List WrapLayer) : Except PyError ℚ :=
  match fps with
  | some f => .ok f
  | none =>
    match findVideoSourceFps layers with
    | some f => .ok f
    | none =>
      match layers with
      | [] => .error .indexError
      | l0 :: _ =>
        match l0 with
        | .bare _ => .error .attributeError
        | .item l =>
          match layerFpsAttr l with
          | some f => .ok f
          | none => .error .attributeError

/-- The scene's memoization cache `scene._cache`, modelled by its key
sequence in insertion order. -/
abbrev SceneCache := List ℚ

/-- A composited RGBA frame returned by the scene: (row, col, channel)
sample data. -/
structure Frame4 where
  data : ℕ → ℕ → ℕ → ℕ

/-- The scene compositor `Composition.__call__` as an opaque state
transformer on its own cache: given a time and the current cache, it
returns an optional frame and the cache it leaves behind. -/
abbrev SceneFn := ℚ → SceneCache → Option Frame4 × SceneCache

/-- A caller-supplied destination plane buffer. -/
abbrev PlaneBuf := ℕ → ℕ → ℕ

/-- The guarded trim of `_to_node` (lines 155-158): when the cache holds
more than `num_threads * 2` entries, delete the first (oldest-inserted)
`num_threads` keys; otherwise leave it unchanged. -/
def trimCache (numThreads : ℕ) (cache : SceneCache) : SceneCache :=
  if numThreads * 2 < cache.length then cache.drop numThreads else cache

/-- `MovisSceneVSWrap._to_node` (lines 147-158): evaluate the scene at
`n / fps`; raise `KeyError` when it returns `None`; otherwise copy the
selected channel of the returned frame over the destination buffer and
perform the guarded cache trim.  Returns (outcome, destination buffer
after the call, scene cache after the call). -/
def MovisSceneVSWrap._to_node (numThreads : ℕ) (scene : SceneFn) (fps : ℚ)
    (n : ℕ) (plane : ℕ) (dst : PlaneBuf) (cache : SceneCache) :
    Except PyError Unit × PlaneBuf × SceneCache :=
  match scene ((n : ℚ) / fps) cache with
  | (none, cache1) => (.error .keyError, dst, cache1)
  | (some f, cache1) =>
    (.ok (), fun r c => f.data r c plane, trimCache numThreads cache1)

/-- The scene-cache evolution of a sequence of `_to_node` calls, starting
from the empty cache established by `__init__` (`self.scene._cache = {}`);
each request is an (output index, plane) pair and gets a fresh
destination buffer. -/
def runToNode (numThreads : ℕ) (scene : SceneFn) (fps : ℚ)
    (reqs : List (ℕ × ℕ)) : SceneCache :=
  reqs.foldl
    (fun c np =>
      (MovisSceneVSWrap._to_node numThreads scene fps np.1 np.2 (fun _ _ => 0) c).2.2)
    []

/-- Hypothesis on the scene compositor: a failed invocation (no frame)
leaves the cache unchanged, and any invocation inserts at most one new
entry at the end of the cache. -/
def InsertsAtMostOne (scene : SceneFn) : Prop :=
  ∀ t c, ((scene t c).1 = none → (scene t c).2 = c) ∧
    ((scene t c).2 = c ∨ ∃ k, (scene t c).2 = c ++ [k])

/-- Whether a `VideoArg` together with the `PropToClip` behaviour yields
no native alpha channel (so the constructor synthesizes the opaque one):
alpha disabled via the tuple form with `False`, or `PropToClip` raising. -/
def NoNativeAlpha (propToClip : VideoNode → Except PyError VideoNode) :
    VideoArg → Prop
  | .plain v => ∃ e, propToClip v = .error e
  | .withAlpha _ _ => False
  | .withFlag v b => b = false ∨ ∃ e, propToClip v = .error e

/-- Concrete 640×480, 90-frame, 30 fps RGB24 node used as test input. -/
def node90 : VideoNode := ⟨640, 480, 90, 30, RGB24, fun _ _ _ _ => 0⟩

/-- Concrete `MovisVSVideoSource` state: `node90` with the synthesized
opaque alpha and no audio (the result of constructing from `node90` with
alpha disabled). -/
def src90 : MovisVSVideoSource :=
  ⟨node90, blankClipGray8 node90 255, none, none⟩

/-- A `PropToClip` behaviour that always raises. -/
def ptcFail (_v : VideoNode) : Except PyError VideoNode := .error .typeError

/-- A concrete resizer conversion function. -/
def conv0 : ConvFn := fun _ _ _ _ _ _ => 0

/-- A concrete scene that always produces a frame and inserts exactly
one cache entry per invocation. -/
def scene0 : SceneFn := fun t c => (some ⟨fun _ _ _ => 0⟩, c ++ [t])

/-- A concrete scene that never produces a frame and never touches its
cache. -/
def sceneNone : SceneFn := fun _ c => (none, c)

/-- A concrete destination buffer. -/
def dst0 : PlaneBuf := fun _ _ => 0

/-- A hypothetical `MovisVSVideoSource` state carrying an audio layer
(not reachable through `construct`; used to exercise the audio-present
branch of `get_audio`). -/
def srcWithAudio : MovisVSVideoSource :=
  ⟨node90, blankClipGray8 node90 255, some ⟨0⟩, some ⟨⟨0⟩⟩⟩

/-- The plane list produced by `src90.__call__ 0`. -/
def planes90 : List PlaneData :=
  [planeOf node90 0 0, planeOf node90 0 1, planeOf node90 0 2,
   planeOf (blankClipGray8 node90 255) 0 0]

/-- A concrete layer list whose second element is a bare video source. -/
def layersA : List WrapLayer :=
  [.item (.otherLayer (some 24)), .bare (.videoSource 30)]

/-- A concrete layer list with no video source; the first element is a
`LayerItem` whose layer has an `fps` attribute. -/
def layersB : List WrapLayer :=
  [.item (.otherLayer (some 24))]

/-- For nonnegative rationals, Python truncation agrees with the floor. -/
theorem pyInt_eq_floor (q : ℚ) (h : 0 ≤ q) : pyInt q = ⌊q⌋ := by
  rw [Rat.floor_def]
  exact Int.tdiv_eq_ediv (Rat.num_nonneg.mpr h) (Int.natCast_nonneg q.den)

/-- Evaluation helper: the duration of `src90` is 3 seconds. -/
theorem src90_duration : src90.duration = 3 := by
  norm_num [MovisVSVideoSource.duration, src90, node90]

/-- Evaluation helper: the frame rate of `src90` is 30. -/
theorem src90_fps : src90.video_node.fps = 30 := rfl

/-- Evaluation helper: `get_key 0 = 0` on `src90`. -/
theorem src90_get_key_zero : src90.get_key 0 = 0 := by
  unfold MovisVSVideoSource.get_key
  rw [if_neg (by rw [src90_duration]; norm_num), src90_fps,
    show ((0 : ℚ) * 30) = ((0 : ℤ) : ℚ) by norm_num,
    pyInt_eq_floor _ (by norm_num), Int.floor_intCast]

/-- Evaluation helper: `get_key 3 = 90` on `src90`. -/
theorem src90_get_key_three : src90.get_key 3 = 90 := by
  unfold MovisVSVideoSource.get_key
  rw [if_neg (by rw [src90_duration]; norm_num), src90_fps,
    show ((3 : ℚ) * 30) = ((90 : ℤ) : ℚ) by norm_num,
    pyInt_eq_floor _ (by norm_num), Int.floor_intCast]

/-- Evaluation helper: `get_key 4 = -1` on `src90` (4 is past the
3-second duration). -/
theorem src90_get_key_four : src90.get_key 4 = -1 := by
  unfold MovisVSVideoSource.get_key
  rw [if_pos (Or.inr (by rw [src90_duration]; norm_num))]

/-- C2: for every time with `time < 0` or `time > duration`, `get_key`
returns `-1` and `__call__` (the spec's `sample`) returns `None`; for
every other time, `get_key` returns `⌊time * frame_rate⌋`. -/
theorem get_key_out_of_range_and_floor (s : MovisVSVideoSource) (t : ℚ)
    (hfps : 0 < s.video_node.fps) :
    ((t < 0 ∨ s.duration < t) → s.get_key t = -1 ∧ s.call t = none) ∧
    (¬(t < 0 ∨ s.duration < t) → s.get_key t = ⌊t * s.video_node.fps⌋) := by
  constructor
  · intro h
    have hk : s.get_key t = -1 := by
      unfold MovisVSVideoSource.get_key
      rw [if_pos h]
    refine ⟨hk, ?_⟩
    simp only [MovisVSVideoSource.call, hk]
    norm_num
  · intro h
    have h0 : 0 ≤ t := le_of_not_lt fun hlt => h (Or.inl hlt)
    have hbranch : s.get_key t = pyInt (t * s.video_node.fps) := by
      unfold MovisVSVideoSource.get_key
      rw [if_neg h]
    rw [hbranch, pyInt_eq_floor _ (mul_nonneg h0 hfps.le)]

/-- Witness for C2 at `src90` and `time = 4`. -/
theorem get_key_out_of_range_and_floor_witness :
    (0 : ℚ) < src90.video_node.fps ∧
    ((((4 : ℚ) < 0 ∨ src90.duration < 4) → src90.get_key 4 = -1 ∧ src90.call 4 = none) ∧
     (¬((4 : ℚ) < 0 ∨ src90.duration < 4) →
        src90.get_key 4 = ⌊(4 : ℚ) * src90.video_node.fps⌋)) :=
  ⟨by rw [src90_fps]; norm_num,
   get_key_out_of_range_and_floor src90 4 (by rw [src90_fps]; norm_num)⟩

/-- C3: boundary asymmetry at `time == duration` for a 30 fps, 90-frame
source: `get_key 3 = 90` (not `-1`, since the out-of-range test is
`time < 0 or duration < time`) while `__call__ 3` returns `None` since
the index 90 is not below the frame count 90. -/
theorem boundary_asymmetry_at_duration :
    src90.get_key 3 = 90 ∧ src90.call 3 = none := by
  refine ⟨src90_get_key_three, ?_⟩
  simp only [MovisVSVideoSource.call, src90_get_key_three,
    MovisVSVideoSource.n_frame]
  norm_num [src90, node90]

/-- C6 counterexample: `get_key` is not monotone over all time inputs:
on `src90` (duration 3), `0 ≤ 4` yet `get_key 0 = 0 > -1 = get_key 4`. -/
theorem get_key_not_monotone :
    (0 : ℚ) ≤ 4 ∧ src90.get_key 0 = 0 ∧ src90.get_key 4 = -1 ∧
    ¬(src90.get_key 0 ≤ src90.get_key 4) := by
  refine ⟨by norm_num, src90_get_key_zero, src90_get_key_four, ?_⟩
  rw [src90_get_key_zero, src90_get_key_four]
  norm_num

/-- C6 (amended): `get_key` is deterministic, and monotonic restricted to
times within `[0, duration]`: for `0 ≤ t1 ≤ t2 ≤ duration` (with
nonnegative frame rate), `get_key t1 ≤ get_key t2`. -/
theorem get_key_monotone_in_range (s : MovisVSVideoSource) (t1 t2 : ℚ)
    (hfps : 0 ≤ s.video_node.fps) (h0 : 0 ≤ t1) (h12 : t1 ≤ t2)
    (h2 : t2 ≤ s.duration) :
    s.get_key t1 ≤ s.get_key t2 ∧ ∀ t : ℚ, s.get_key t = s.get_key t := by
  refine ⟨?_, fun _ => rfl⟩
  have h1d : ¬(t1 < 0 ∨ s.duration < t1) := by
    push_neg
    exact ⟨h0, le_trans h12 h2⟩
  have h2d : ¬(t2 < 0 ∨ s.duration < t2) := by
    push_neg
    exact ⟨le_trans h0 h12, h2⟩
  unfold MovisVSVideoSource.get_key
  rw [if_neg h1d, if_neg h2d,
    pyInt_eq_floor _ (mul_nonneg h0 hfps),
    pyInt_eq_floor _ (mul_nonneg (le_trans h0 h12) hfps)]
  exact Int.floor_le_floor (mul_le_mul_of_nonneg_right h12 hfps)

/-- Witness for amended C6 at `src90`, `t1 = 1`, `t2 = 2`. -/
theorem get_key_monotone_in_range_witness :
    ((0 : ℚ) ≤ src90.video_node.fps ∧ (0 : ℚ) ≤ 1 ∧ (1 : ℚ) ≤ 2 ∧
      (2 : ℚ) ≤ src90.duration) ∧
    (src90.get_key 1 ≤ src90.get_key 2 ∧
      ∀ t : ℚ, src90.get_key t = src90.get_key t) :=
  ⟨⟨by rw [src90_fps]; norm_num, by norm_num, by norm_num,
    by rw [src90_duration]; norm_num⟩,
   get_key_monotone_in_range src90 1 2 (by rw [src90_fps]; norm_num)
     (by norm_num) (by norm_num) (by rw [src90_duration]; norm_num)⟩

/-- Resizing to a format the clip already has is the identity. -/
theorem resizeBicubic_same_format (conv : ConvFn) (n : VideoNode)
    (fmt : VideoFormat) (h : n.format = fmt) : resizeBicubic conv n fmt = n :=
  if_pos h

/-- Resizing preserves the clip's width. -/
theorem resizeBicubic_width (conv : ConvFn) (n : VideoNode) (fmt : VideoFormat) :
    (resizeBicubic conv n fmt).width = n.width := by
  unfold resizeBicubic
  split <;> rfl

/-- Resizing preserves the clip's height. -/
theorem resizeBicubic_height (conv : ConvFn) (n : VideoNode) (fmt : VideoFormat) :
    (resizeBicubic conv n fmt).height = n.height := by
  unfold resizeBicubic
  split <;> rfl

/-- When there is no native alpha channel (flag `False` or `PropToClip`
raising), the selected alpha node is the synthesized opaque blank. -/
theorem alphaNodeOf_no_native (propToClip : VideoNode → Except PyError VideoNode)
    (arg : VideoArg) (h : NoNativeAlpha propToClip arg) :
    alphaNodeOf propToClip arg = blankClipGray8 arg.video 255 := by
  cases arg with
  | plain v =>
    obtain ⟨e, he⟩ := h
    simp [alphaNodeOf, he, VideoArg.video]
  | withAlpha v a => exact h.elim
  | withFlag v b =>
    rcases h with hb | ⟨e, he⟩
    · subst hb
      simp [alphaNodeOf, VideoArg.video]
    · cases b
      · simp [alphaNodeOf, VideoArg.video]
      · simp [alphaNodeOf, he, VideoArg.video]

/-- `src90` is the state constructed from `node90` with alpha disabled
and no audio. -/
theorem src90_constructed :
    MovisVSVideoSource.construct ptcFail conv0 (.withFlag node90 false) none =
      .ok src90 := rfl

/-- C9: if alpha extraction fails during construction (`PropToClip`
raises), the constructor substitutes the synthesized fully-opaque 8-bit
alpha stream (uniform 255) — likewise when alpha is disabled via the
tuple form with `False` — and construction (without audio) never fails
due to alpha handling. -/
theorem alpha_fallback_opaque (propToClip : VideoNode → Except PyError VideoNode)
    (conv : ConvFn) (v : VideoNode)
    (hfail : ∃ e, propToClip v = .error e) :
    (MovisVSVideoSource.construct propToClip conv (.plain v) none =
       .ok ⟨resizeBicubic conv v RGB24, blankClipGray8 v 255, none, none⟩) ∧
    (MovisVSVideoSource.construct propToClip conv (.withFlag v true) none =
       .ok ⟨resizeBicubic conv v RGB24, blankClipGray8 v 255, none, none⟩) ∧
    (MovisVSVideoSource.construct propToClip conv (.withFlag v false) none =
       .ok ⟨resizeBicubic conv v RGB24, blankClipGray8 v 255, none, none⟩) ∧
    (∀ arg : VideoArg, ∃ s,
       MovisVSVideoSource.construct propToClip conv arg none = .ok s) ∧
    ((blankClipGray8 v 255).format = GRAY8 ∧
      (blankClipGray8 v 255).format.bitsPerSample = 8 ∧
      ∀ f p r c, (blankClipGray8 v 255).data f p r c = 255) := by
  obtain ⟨e, he⟩ := hfail
  have halpha : resizeBicubic conv (blankClipGray8 v 255) GRAY8 =
      blankClipGray8 v 255 :=
    resizeBicubic_same_format conv _ _ rfl
  refine ⟨?_, ?_, ?_, fun arg => ⟨_, rfl⟩, rfl, rfl, fun _ _ _ _ => rfl⟩
  · simp [MovisVSVideoSource.construct, alphaNodeOf, VideoArg.video, he, halpha]
  · simp [MovisVSVideoSource.construct, alphaNodeOf, VideoArg.video, he, halpha]
  · simp [MovisVSVideoSource.construct, alphaNodeOf, VideoArg.video, halpha]

/-- Witness for C9 at `ptcFail`, `conv0`, `node90`. -/
theorem alpha_fallback_opaque_witness :
    (∃ e, ptcFail node90 = .error e) ∧
    ((MovisVSVideoSource.construct ptcFail conv0 (.plain node90) none =
        .ok ⟨resizeBicubic conv0 node90 RGB24, blankClipGray8 node90 255, none, none⟩) ∧
     (MovisVSVideoSource.construct ptcFail conv0 (.withFlag node90 true) none =
        .ok ⟨resizeBicubic conv0 node90 RGB24, blankClipGray8 node90 255, none, none⟩) ∧
     (MovisVSVideoSource.construct ptcFail conv0 (.withFlag node90 false) none =
        .ok ⟨resizeBicubic conv0 node90 RGB24, blankClipGray8 node90 255, none, none⟩) ∧
     (∀ arg : VideoArg, ∃ s,
        MovisVSVideoSource.construct ptcFail conv0 arg none = .ok s) ∧
     ((blankClipGray8 node90 255).format = GRAY8 ∧
       (blankClipGray8 node90 255).format.bitsPerSample = 8 ∧
       ∀ f p r c, (blankClipGray8 node90 255).data f p r c = 255)) :=
  ⟨⟨.typeError, rfl⟩, alpha_fallback_opaque ptcFail conv0 node90 ⟨.typeError, rfl⟩⟩

/-- C10: supplying any non-`None` audio node makes the constructor raise
`NotImplementedError` (via the unimplemented `MovisVSAudioSource`
constructor); consequently every successfully constructed instance has
no audio: `_audio` and `_audio_layer` are `None`, `has_audio()` is
`False`, and `get_audio` returns `None` for all arguments. -/
theorem audio_constructor_raises (propToClip : VideoNode → Except PyError VideoNode)
    (conv : ConvFn) (arg : VideoArg) :
    (∀ a : AudioNode, MovisVSVideoSource.construct propToClip conv arg (some a) =
        .error .notImplementedError) ∧
    (∀ (audio : Option AudioNode) (s : MovisVSVideoSource),
        MovisVSVideoSource.construct propToClip conv arg audio = .ok s →
        s._audio = none ∧ s._audio_layer = none ∧ s.has_audio = false ∧
        ∀ t0 t1 : ℚ, s.get_audio t0 t1 = .ok none) := by
  constructor
  · intro a
    rfl
  · intro audio s h
    cases audio with
    | some a => simp [MovisVSVideoSource.construct, MovisVSAudioSource.construct] at h
    | none =>
      simp only [MovisVSVideoSource.construct, Except.ok.injEq] at h
      subst h
      exact ⟨rfl, rfl, rfl, fun _ _ => rfl⟩

/-- Witness for C10: audio supplied raises; `src90` (constructed without
audio) has no audio layer and absent audio everywhere. -/
theorem audio_constructor_raises_witness :
    MovisVSVideoSource.construct ptcFail conv0 (.withFlag node90 false) (some ⟨0⟩) =
      .error .notImplementedError ∧
    (src90._audio = none ∧ src90._audio_layer = none ∧ src90.has_audio = false ∧
      ∀ t0 t1 : ℚ, src90.get_audio t0 t1 = .ok none) :=
  ⟨(audio_constructor_raises ptcFail conv0 (.withFlag node90 false)).1 ⟨0⟩,
   (audio_constructor_raises ptcFail conv0 (.withFlag node90 false)).2 none src90
     src90_constructed⟩

/-- C7: `get_audio` returns absent when there is no audio track; when an
audio track (and audio layer) is present, the audio operation fails with
`NotImplementedError` whenever invoked, as does
`MovisVSAudioSource.get_audio` itself. -/
theorem get_audio_absent_or_raises (s : MovisVSVideoSource) (t0 t1 : ℚ) :
    (s._audio = none → s.get_audio t0 t1 = .ok none) ∧
    (∀ a la, s._audio = some a → s._audio_layer = some la →
        s.get_audio t0 t1 = .error .notImplementedError) ∧
    (∀ l : MovisVSAudioSource, l.get_audio t0 t1 = .error .notImplementedError) := by
  refine ⟨?_, ?_, fun _ => rfl⟩
  · intro h
    cases hl : s._audio_layer <;> simp [MovisVSVideoSource.get_audio, h, hl]
  · intro a la ha hla
    simp [MovisVSVideoSource.get_audio, ha, hla, MovisVSAudioSource.get_audio]

/-- Witness for C7 at `src90` (no audio) and `srcWithAudio` (audio
present). -/
theorem get_audio_absent_or_raises_witness :
    src90.get_audio 0 1 = .ok none ∧
    srcWithAudio.get_audio 0 1 = .error .notImplementedError :=
  ⟨(get_audio_absent_or_raises src90 0 1).1 rfl,
   (get_audio_absent_or_raises srcWithAudio 0 1).2.1 ⟨0⟩ ⟨⟨0⟩⟩ rfl rfl⟩

/-- C4: for every in-range time, `__call__` (the spec's `sample`) on a
source constructed without a native alpha channel returns exactly 4
planes, each with the identical width and height of the colour node,
each coerced to 8-bit unsigned samples (< 256), and plane 3 (alpha) is
uniformly 255. -/
theorem sample_four_planes (propToClip : VideoNode → Except PyError VideoNode)
    (conv : ConvFn) (arg : VideoArg) (s : MovisVSVideoSource) (t : ℚ)
    (l : List PlaneData)
    (hs : MovisVSVideoSource.construct propToClip conv arg none = .ok s)
    (hna : NoNativeAlpha propToClip arg)
    (hl : s.call t = some l) :
    l.length = 4 ∧
    (∀ p ∈ l, p.width = s.video_node.width ∧ p.height = s.video_node.height ∧
      ∀ r c, p.data r c < 256) ∧
    (∃ p3, l[3]? = some p3 ∧ ∀ r c, p3.data r c = 255) := by
  simp only [MovisVSVideoSource.construct, Except.ok.injEq] at hs
  subst hs
  rw [alphaNodeOf_no_native propToClip arg hna,
    resizeBicubic_same_format conv (blankClipGray8 arg.video 255) GRAY8 rfl] at hl ⊢
  simp only [MovisVSVideoSource.call] at hl
  split at hl
  · exact absurd hl (by simp)
  · rw [Option.some.injEq] at hl
    subst hl
    refine ⟨rfl, ?_, ⟨_, rfl, ?_⟩⟩
    · intro p hp
      have hw := resizeBicubic_width conv arg.video RGB24
      have hh := resizeBicubic_height conv arg.video RGB24
      rcases List.mem_iff_get.mp hp with ⟨⟨i, hi⟩, rfl⟩
      match i, hi with
      | 0, _ => exact ⟨rfl, rfl, fun r c => Nat.mod_lt _ (by norm_num)⟩
      | 1, _ => exact ⟨rfl, rfl, fun r c => Nat.mod_lt _ (by norm_num)⟩
      | 2, _ => exact ⟨rfl, rfl, fun r c => Nat.mod_lt _ (by norm_num)⟩
      | 3, _ =>
        refine ⟨?_, ?_, fun r c => Nat.mod_lt _ (by norm_num)⟩
        · simpa [planeOf, blankClipGray8] using hw.symm
        · simpa [planeOf, blankClipGray8] using hh.symm
    · intro r c
      rfl

/-- Evaluation helper: `src90.__call__ 0` returns the concrete 4-plane
list `planes90`. -/
theorem src90_call_zero : src90.call 0 = some planes90 := by
  simp only [MovisVSVideoSource.call, src90_get_key_zero,
    MovisVSVideoSource.n_frame]
  norm_num [src90, node90, planes90]

/-- Witness for C4 at `src90` (constructed with alpha disabled) and
`time = 0`. -/
theorem sample_four_planes_witness :
    MovisVSVideoSource.construct ptcFail conv0 (.withFlag node90 false) none =
      .ok src90 ∧
    NoNativeAlpha ptcFail (.withFlag node90 false) ∧
    src90.call 0 = some planes90 ∧
    (planes90.length = 4 ∧
     (∀ p ∈ planes90, p.width = src90.video_node.width ∧
        p.height = src90.video_node.height ∧ ∀ r c, p.data r c < 256) ∧
     (∃ p3, planes90[3]? = some p3 ∧ ∀ r c, p3.data r c = 255)) :=
  ⟨src90_constructed, Or.inl rfl, src90_call_zero,
   sample_four_planes ptcFail conv0 (.withFlag node90 false) src90 0 planes90
     src90_constructed (Or.inl rfl) src90_call_zero⟩

/-- C5: when the scene returns no frame for `time = n / fps`, `_to_node`
fails with a `KeyError`, and on that failure neither the destination
buffer nor the scene's cache is modified by the bridge (the copy and the
trim are only reached after a successful production): the cache is left
exactly as the scene invocation itself left it. -/
theorem to_node_failure_no_mutation (T : ℕ) (scene : SceneFn) (fps : ℚ)
    (n plane : ℕ) (dst : PlaneBuf) (cache : SceneCache)
    (h : (scene ((n : ℚ) / fps) cache).1 = none) :
    MovisSceneVSWrap._to_node T scene fps n plane dst cache =
      (.error .keyError, dst, (scene ((n : ℚ) / fps) cache).2) := by
  unfold MovisSceneVSWrap._to_node
  rcases hsc : scene ((n : ℚ) / fps) cache with ⟨frame, c1⟩
  cases frame with
  | some f =>
    rw [hsc] at h
    exact Option.noConfusion h
  | none => rfl

/-- Witness for C5 at `sceneNone`, `n = 5`, `plane = 2`, empty cache. -/
theorem to_node_failure_no_mutation_witness :
    (sceneNone ((5 : ℚ) / 30) []).1 = none ∧
    MovisSceneVSWrap._to_node 1 sceneNone 30 5 2 dst0 [] =
      (.error .keyError, dst0, (sceneNone ((5 : ℚ) / 30) []).2) :=
  ⟨rfl, to_node_failure_no_mutation 1 sceneNone 30 5 2 dst0 [] rfl⟩

/-- One `_to_node` call preserves the cache-size bound `parallelism * 2`
when the scene inserts at most one entry per successful invocation. -/
theorem to_node_preserves_bound (T : ℕ) (scene : SceneFn) (fps : ℚ)
    (hT : 1 ≤ T) (hscene : InsertsAtMostOne scene) (n plane : ℕ)
    (dst : PlaneBuf) (cache : SceneCache) (hc : cache.length ≤ T * 2) :
    ((MovisSceneVSWrap._to_node T scene fps n plane dst cache).2.2).length ≤ T * 2 := by
  have hs := hscene ((n : ℚ) / fps) cache
  unfold MovisSceneVSWrap._to_node
  rcases hsc : scene ((n : ℚ) / fps) cache with ⟨frame, c1⟩
  rw [hsc] at hs
  cases frame with
  | none =>
    have hcc : c1 = cache := hs.1 rfl
    show c1.length ≤ T * 2
    rw [hcc]
    exact hc
  | some f =>
    have hlen : c1.length ≤ cache.length + 1 := by
      rcases hs.2 with h1 | ⟨k, hk⟩
      · have hcc : c1 = cache := h1
        rw [hcc]
        exact Nat.le_succ _
      · have hcc : c1 = cache ++ [k] := hk
        rw [hcc]
        simp
    show (trimCache T c1).length ≤ T * 2
    unfold trimCache
    split
    · rw [List.length_drop]
      omega
    · omega

/-- C1: starting from the empty memoization cache established at
construction (`self.scene._cache = {}`), under sequential `_to_node`
calls in which each successful scene invocation inserts at most one new
cache entry (and failed invocations none), the cache size never exceeds
`2 × parallelism` immediately after the trim decision point (needs
`parallelism ≥ 1`); and the trim removes exactly the `parallelism`
oldest-inserted entries when the size exceeds `2 × parallelism`, and no
entries otherwise. -/
theorem cache_bound_and_trim (T : ℕ) (scene : SceneFn)
    (hT : 1 ≤ T) (hscene : InsertsAtMostOne scene) :
    (∀ (fps : ℚ) (reqs : List (ℕ × ℕ)),
      (runToNode T scene fps reqs).length ≤ T * 2) ∧
    (∀ cache : SceneCache,
      (T * 2 < cache.length →
        trimCache T cache = cache.drop T ∧
        (trimCache T cache).length = cache.length - T ∧
        cache.take T ++ trimCache T cache = cache) ∧
      (cache.length ≤ T * 2 → trimCache T cache = cache)) := by
  constructor
  · intro fps reqs
    unfold runToNode
    have main : ∀ (rs : List (ℕ × ℕ)) (c : SceneCache), c.length ≤ T * 2 →
        (rs.foldl (fun c np =>
          (MovisSceneVSWrap._to_node T scene fps np.1 np.2 (fun _ _ => 0) c).2.2)
          c).length ≤ T * 2 := by
      intro rs
      induction rs with
      | nil =>
        intro c hc
        simpa using hc
      | cons hd tl ih =>
        intro c hc
        exact ih _ (to_node_preserves_bound T scene fps hT hscene hd.1 hd.2 _ c hc)
    exact main reqs [] (by simp)
  · intro cache
    constructor
    · intro hlen
      refine ⟨?_, ?_, ?_⟩
      · unfold trimCache
        rw [if_pos hlen]
      · unfold trimCache
        rw [if_pos hlen, List.length_drop]
      · unfold trimCache
        rw [if_pos hlen]
        exact List.take_append_drop T cache
    · intro hlen
      unfold trimCache
      rw [if_neg (by omega)]

/-- Witness for C1 at `parallelism = 1`, `scene0` (always succeeds,
inserts exactly one entry per call), five sequential requests, and a
concrete over-full cache for the trim facts. -/
theorem cache_bound_and_trim_witness :
    (1 : ℕ) ≤ 1 ∧ InsertsAtMostOne scene0 ∧
    (runToNode 1 scene0 30 [(0, 0), (1, 1), (2, 2), (3, 0), (4, 1)]).length ≤ 1 * 2 ∧
    trimCache 1 ([0, 1, 2] : SceneCache) = ([0, 1, 2] : SceneCache).drop 1 := by
  have hins : InsertsAtMostOne scene0 := by
    intro t c
    refine ⟨fun h => ?_, Or.inr ⟨t, rfl⟩⟩
    simp [scene0] at h
  exact ⟨le_refl 1, hins,
    (cache_bound_and_trim 1 scene0 (le_refl 1) hins).1 30 _,
    (((cache_bound_and_trim 1 scene0 (le_refl 1) hins).2 [0, 1, 2]).1
      (by decide)).1⟩

/-- The scan loop finds the first video-source layer: unwrapped
non-video-source prefixes are skipped. -/
theorem findVideoSourceFps_append (pre : List WrapLayer) (x : WrapLayer)
    (post : List WrapLayer) (f : ℚ)
    (hpre : ∀ l ∈ pre, ∀ g, unwrapLayer l ≠ .videoSource g)
    (hx : unwrapLayer x = .videoSource f) :
    findVideoSourceFps (pre ++ x :: post) = some f := by
  induction pre with
  | nil =>
    show findVideoSourceFps (x :: post) = some f
    unfold findVideoSourceFps
    rw [hx]
  | cons hd tl ih =>
    rcases hu : unwrapLayer hd with g | a
    · exact absurd hu (hpre hd (List.mem_cons_self hd tl) g)
    · show findVideoSourceFps (hd :: (tl ++ x :: post)) = some f
      unfold findVideoSourceFps
      rw [hu]
      exact ih fun l hl g => hpre l (List.mem_cons_of_mem hd hl) g

/-- The scan loop finds nothing when no unwrapped layer is a video
source. -/
theorem findVideoSourceFps_none (layers : List WrapLayer)
    (h : ∀ l ∈ layers, ∀ g, unwrapLayer l ≠ .videoSource g) :
    findVideoSourceFps layers = none := by
  induction layers with
  | nil => rfl
  | cons hd tl ih =>
    rcases hu : unwrapLayer hd with g | a
    · exact absurd hu (h hd (List.mem_cons_self hd tl) g)
    · unfold findVideoSourceFps
      rw [hu]
      exact ih fun l hl g => h l (List.mem_cons_of_mem hd hl) g

/-- Unfolding of the fallback branch of `inferFps` when the scan finds
no video source and the first element is a `LayerItem`. -/
theorem inferFps_fallback_item (l0 : SceneLayerKind) (tl : List WrapLayer)
    (hnone : findVideoSourceFps (.item l0 :: tl) = none) :
    inferFps none (.item l0 :: tl) =
      match layerFpsAttr l0 with
      | some f => .ok f
      | none => .error .attributeError := by
  unfold inferFps
  rw [hnone]

/-- C8: with no explicit `fps`, the bridge frame rate is the
`video_node.fps` of the first video-source layer found scanning the
scene's layer list (unwrapping layer items); if no layer is a video
source, it falls back to the first layer's own `fps` attribute converted
to a rational; an explicitly supplied `fps` is used exactly. -/
theorem infer_fps_selection :
    (∀ (f : ℚ) (layers : List WrapLayer), inferFps (some f) layers = .ok f) ∧
    (∀ (pre : List WrapLayer) (x : WrapLayer) (post : List WrapLayer) (f : ℚ),
      (∀ l ∈ pre, ∀ g, unwrapLayer l ≠ .videoSource g) →
      unwrapLayer x = .videoSource f →
      inferFps none (pre ++ x :: post) = .ok f) ∧
    (∀ (layers : List WrapLayer) (l0 : SceneLayerKind) (f : ℚ),
      (∀ l ∈ layers, ∀ g, unwrapLayer l ≠ .videoSource g) →
      layers.head? = some (.item l0) → layerFpsAttr l0 = some f →
      inferFps none layers = .ok f) := by
  refine ⟨fun f layers => rfl, ?_, ?_⟩
  · intro pre x post f hpre hx
    unfold inferFps
    rw [findVideoSourceFps_append pre x post f hpre hx]
  · intro layers l0 f hnone hhead hattr
    cases layers with
    | nil => exact absurd hhead (by simp)
    | cons hd tl =>
      rw [List.head?_cons, Option.some.injEq] at hhead
      subst hhead
      rw [inferFps_fallback_item l0 tl (findVideoSourceFps_none _ hnone), hattr]

/-- Witness for C8: explicit fps, a layer list whose second element is a
bare video source, and a video-source-free layer list. -/
theorem infer_fps_selection_witness :
    inferFps (some 25) [] = .ok 25 ∧
    inferFps none layersA = .ok 30 ∧
    inferFps none layersB = .ok 24 := by
  have hpre : ∀ l ∈ [WrapLayer.item (.otherLayer (some 24))], ∀ g : ℚ,
      unwrapLayer l ≠ .videoSource g := by
    intro l hl g
    rw [List.mem_singleton] at hl
    subst hl
    simp [unwrapLayer]
  refine ⟨infer_fps_selection.1 25 [], ?_, ?_⟩
  · exact infer_fps_selection.2.1 [.item (.otherLayer (some 24))]
      (.bare (.videoSource 30)) [] 30 hpre rfl
  · exact infer_fps_selection.2.2 layersB (.otherLayer (some 24)) 24 hpre rfl rfl
